import Mathlib

/-!
Verification development for the reminder application core in `src/App.js`.

The embedding models:
- the SQLite table `reminders` (columns `id INTEGER PRIMARY KEY AUTOINCREMENT`,
  `title TEXT`, `message TEXT`, `date TEXT`) as a list of rows plus the
  AUTOINCREMENT sequence counter (SQLite's AUTOINCREMENT never reuses ids,
  even after deletions);
- the host notification subsystem (expo-notifications) as the multiset of
  currently scheduled notifications, each carrying the string identifier by
  which it can be cancelled;
- the in-memory React state `reminders` (set via `setReminders`) as a list;
- JavaScript `Date` values and their `toISOString()` form are both modelled
  as the ISO string.

Each operation of the source is translated as a total state transformer.
Failures of the underlying asynchronous calls (storage engine errors,
notification-subsystem errors) are injected through explicit Boolean fault
flags, one per fallible call; a `try`/`catch` block in the source becomes a
branch that, on an injected fault, skips the remaining steps of the block and
emits the `console.log` error message the source prints.  Every operation
also returns the trace of external calls it issued, so that ordering
properties are statable.
-/

/-- A persisted row of the `reminders` table. -/
structure Reminder where
  id : Nat
  title : String
  message : String
  date : String
deriving Repr, DecidableEq

/-- A notification currently scheduled with the host subsystem.  The
`identifier` is the string tag by which `cancelScheduledNotificationAsync`
can later cancel it. -/
structure Notif where
  identifier : String
  title : String
  body : String
  date : String
deriving Repr, DecidableEq

/-- State of the SQLite database file `reminders.db`: whether the schema has
been created, the rows of the `reminders` table, and the AUTOINCREMENT
sequence value (the next id to be assigned). -/
structure DB where
  schemaInitialized : Bool
  reminders : List Reminder
  nextId : Nat
deriving Repr, DecidableEq

/-- State of the host notification subsystem: the scheduled notifications and
a counter used to model the fresh identifiers the platform generates when the
caller supplies none. -/
structure NotifSys where
  scheduled : List Notif
  nextAuto : Nat
deriving Repr, DecidableEq

/-- Whole-application state: the database, the notification subsystem, and
the in-memory `reminders` React state displayed by the list. -/
structure AppState where
  db : DB
  notifs : NotifSys
  remindersUI : List Reminder
deriving Repr, DecidableEq

/-- External calls issued by the operations, in order, plus the console error
messages printed by `catch` blocks. -/
inductive Event where
  | storeInsert (title message date : String)
  | storeDelete (id : Nat)
  | storeSelectAll
  | notifScheduleReq (title body date : String)
  | notifCancel (tag : String)
  | logError (msg : String)
deriving Repr, DecidableEq

/-- Modelled from the host platform (expo-notifications): when
`scheduleNotificationAsync` is called without an `identifier` field — as the
source does — the platform assigns a fresh UUID as the notification's
identifier.  A UUID is never equal to the decimal string form of a reminder
id, so the generated identifiers are modelled as the namespace
`uuid-0, uuid-1, ...`, disjoint from decimal integer strings. -/
def autoIdentifier (n : Nat) : String := "uuid-" ++ toString n

/-- The platform call `Notifications.scheduleNotificationAsync` as issued at
`src/App.js:149-159`: content `title`/`body`, trigger date; no `identifier`
is supplied, so the platform tags the notification with a fresh generated
identifier. -/
def scheduleNotificationAsync (title body date : String) (ns : NotifSys) : NotifSys :=
  { scheduled := ns.scheduled ++
      [{ identifier := autoIdentifier ns.nextAuto, title := title, body := body, date := date }],
    nextAuto := ns.nextAuto + 1 }

/-- Modelled from the spec: the platform call
`Notifications.cancelScheduledNotificationAsync(tag)` (host code, not in
`src/`) removes every scheduled notification whose identifier equals `tag`
and succeeds — a no-op, not an error, when no such notification is
scheduled. -/
def cancelScheduledNotificationAsync (tag : String) (ns : NotifSys) : NotifSys :=
  { ns with scheduled := ns.scheduled.filter (fun n => n.identifier ≠ tag) }

/-- The SQL `INSERT INTO reminders (title, message, date) VALUES (?, ?, ?)`
of `src/App.js:126-129`: appends a row with the next AUTOINCREMENT id and
bumps the sequence.  No validation: any strings, including empty ones and
past-dated timestamps, are stored as given. -/
def runAsyncInsert (title message date : String) (db : DB) : DB :=
  { db with
    reminders := db.reminders ++
      [{ id := db.nextId, title := title, message := message, date := date }],
    nextId := db.nextId + 1 }

/-- The SQL `DELETE FROM reminders WHERE id = ?` of `src/App.js:139`:
removes the rows with the given id; succeeds (deleting zero rows) when no
such row exists. -/
def runAsyncDelete (id : Nat) (db : DB) : DB :=
  { db with reminders := db.reminders.filter (fun r => r.id ≠ id) }

/-- The SQL `SELECT * FROM reminders` of `src/App.js:117`: all rows in
storage order. -/
def listAll (db : DB) : List Reminder := db.reminders

/-- `initDatabase` models the source function named `initializeDatabase`
(`src/App.js:26-41`): `CREATE TABLE IF NOT EXISTS reminders (...)` inside
`try`/`catch`.  Creating the table when absent only
brings the (empty) table into existence — a table that does not exist holds
no rows, so no reminder record is altered or dropped either way.  On an
injected storage fault the `catch` logs and the state is unchanged. -/
def initDatabase (fail : Bool) (db : DB) : DB × List Event :=
  if fail then (db, [Event.logError "Error while initializing database: "])
  else ({ db with schemaInitialized := true }, [])

/-- `loadReminders` (`src/App.js:115-122`): `SELECT * FROM reminders`, then
`setReminders(allRows)`; its own `catch` logs and leaves the React state
untouched, so a load failure never propagates to callers. -/
def loadReminders (fail : Bool) (s : AppState) : AppState × List Event :=
  if fail then (s, [Event.storeSelectAll, Event.logError "Error while loading reminders: "])
  else ({ s with remindersUI := listAll s.db }, [Event.storeSelectAll])

/-- `scheduleNotification` (`src/App.js:147-163`): arms a notification via
`scheduleNotificationAsync` with the given title/message/date; its own
`catch` swallows any scheduling error after logging, so this function never
throws to its caller.  Note the reminder id is not a parameter and no
`identifier` is passed to the platform. -/
def scheduleNotification (fail : Bool) (title message date : String) (ns : NotifSys) :
    NotifSys × List Event :=
  if fail then (ns, [Event.notifScheduleReq title message date,
                     Event.logError "Error scheduling notification: "])
  else (scheduleNotificationAsync title message date ns,
        [Event.notifScheduleReq title message date])

/-- `addReminder` (`src/App.js:124-135`): inside `try`, INSERT the row, then
`scheduleNotification`, then `loadReminders`.  Only the INSERT can throw out
of the `try` (the other two catch internally), in which case the `catch`
logs and the remaining steps are skipped. -/
def addReminder (failInsert failSchedule failLoad : Bool)
    (title message date : String) (s : AppState) : AppState × List Event :=
  if failInsert then
    (s, [Event.storeInsert title message date,
         Event.logError "Error while adding reminder: "])
  else
    let s1 : AppState := { s with db := runAsyncInsert title message date s.db }
    let p2 := scheduleNotification failSchedule title message date s1.notifs
    let s2 : AppState := { s1 with notifs := p2.1 }
    let p3 := loadReminders failLoad s2
    (p3.1, Event.storeInsert title message date :: (p2.2 ++ p3.2))

/-- `deleteReminder` (`src/App.js:137-145`): inside `try`, DELETE the row,
then `cancelScheduledNotificationAsync(id.toString())`, then
`loadReminders`.  A failing DELETE skips both later steps; a failing cancel
is caught by the outer `catch` and skips the reload. -/
def deleteReminder (failDelete failCancel failLoad : Bool)
    (id : Nat) (s : AppState) : AppState × List Event :=
  if failDelete then
    (s, [Event.storeDelete id, Event.logError "Error while deleting reminder: "])
  else
    let s1 : AppState := { s with db := runAsyncDelete id s.db }
    if failCancel then
      (s1, [Event.storeDelete id, Event.notifCancel (toString id),
            Event.logError "Error while deleting reminder: "])
    else
      let s2 : AppState :=
        { s1 with notifs := cancelScheduledNotificationAsync (toString id) s1.notifs }
      let p3 := loadReminders failLoad s2
      (p3.1, Event.storeDelete id :: Event.notifCancel (toString id) :: p3.2)

/-- A fault-free user operation on the screen: tapping "add" or tapping a
row's delete icon. -/
inductive Op where
  | addOp (title message date : String)
  | delOp (id : Nat)
deriving Repr, DecidableEq

/-- Run one fault-free operation. -/
def runOp (s : AppState) : Op → AppState
  | Op.addOp t m d => (addReminder false false false t m d s).1
  | Op.delOp i => (deleteReminder false false false i s).1

/-- Run a sequence of fault-free operations. -/
def runOps (s : AppState) : List Op → AppState
  | [] => s
  | o :: os => runOps (runOp s o) os

/-- Iterate a fault-free `addReminder` with fixed fields `n` times. -/
def addN (n : Nat) (title message date : String) (s : AppState) : AppState :=
  match n with
  | 0 => s
  | k + 1 => addN k title message date (addReminder false false false title message date s).1

/-- Store invariant maintained by the code: every persisted id is below the
AUTOINCREMENT sequence value, and persisted ids are pairwise distinct. -/
def StoreInv (s : AppState) : Prop :=
  (∀ r ∈ s.db.reminders, r.id < s.db.nextId) ∧ (s.db.reminders.map Reminder.id).Nodup

instance (s : AppState) : Decidable (StoreInv s) := by
  unfold StoreInv
  infer_instance

/-- A concrete freshly initialized application state. -/
def exInit : AppState :=
  { db := { schemaInitialized := true, reminders := [], nextId := 1 },
    notifs := { scheduled := [], nextAuto := 0 },
    remindersUI := [] }

example : (addReminder false false false "a" "b" "t" exInit).1.db.reminders =
    [{ id := 1, title := "a", message := "b", date := "t" }] := by decide

example : (addReminder false false false "a" "b" "t" exInit).1.notifs.scheduled.map
    Notif.identifier = ["uuid-0"] := by decide

/-- A concrete state with two persisted reminders and one outstanding
scheduled notification, used to instantiate hypotheses. -/
def exTwo : AppState :=
  { db := { schemaInitialized := true,
            reminders := [{ id := 1, title := "a", message := "b", date := "t" },
                          { id := 2, title := "c", message := "d", date := "u" }],
            nextId := 3 },
    notifs := { scheduled := [{ identifier := "uuid-0", title := "a", body := "b", date := "t" }],
                nextAuto := 1 },
    remindersUI := [{ id := 1, title := "a", message := "b", date := "t" },
                    { id := 2, title := "c", message := "d", date := "u" }] }

theorem loadReminders_db (fail : Bool) (s : AppState) :
    ((loadReminders fail s).1).db = s.db := by
  cases fail <;> simp [loadReminders]

theorem addReminder_ok_db (fs fl : Bool) (t m d : String) (s : AppState) :
    ((addReminder false fs fl t m d s).1).db = runAsyncInsert t m d s.db := by
  cases fs <;> cases fl <;> simp [addReminder, scheduleNotification, loadReminders]

theorem deleteReminder_ok_db (fc fl : Bool) (id : Nat) (s : AppState) :
    ((deleteReminder false fc fl id s).1).db = runAsyncDelete id s.db := by
  cases fc <;> cases fl <;> simp [deleteReminder, loadReminders]

/-- C1: the claim fails on the code, which contradicts its own delete flow
(a code bug).  Evaluating the code at a concrete input: from a fresh state,
a fault-free `addReminder` (which arms one notification) followed
immediately by a fault-free `deleteReminder` of the newly assigned id `1`
leaves the armed notification still scheduled, tagged with the
platform-generated identifier rather than with the string form `"1"` of the
reminder id: `scheduleNotification` never receives the id and passes no
identifier, so the delete flow's cancel-by-`"1"` matches nothing. -/
theorem C1_add_then_delete_leaves_notification :
    ((deleteReminder false false false 1
        (addReminder false false false "Pay rent" "Due today"
          "2024-01-01T00:00:00.000Z" exInit).1).1.notifs.scheduled.map Notif.identifier
      = ["uuid-0"])
    ∧ ("1" ∉ ((deleteReminder false false false 1
        (addReminder false false false "Pay rent" "Due today"
          "2024-01-01T00:00:00.000Z" exInit).1).1.notifs.scheduled.map Notif.identifier)) := by
  decide

/-- C2 counterexample: at the concrete invocation `deleteReminder 1` on a
fresh state, the very first external call of the delete flow is the store
deletion, and the notification cancellation also occurs in the trace — so
the flow is not "first cancel, then remove" as the claim states. -/
theorem C2_counterexample_delete_before_cancel :
    ((deleteReminder false false false 1 exInit).2.head? = some (Event.storeDelete 1))
    ∧ (Event.notifCancel "1" ∈ (deleteReminder false false false 1 exInit).2) := by
  decide

/-- C2 (amended): for every invocation of the delete operation, the trace of
external calls starts with the store record removal, followed (when the
removal did not fail) by the cancellation of the notification tagged with
the id's string form, followed (when the cancellation did not fail) by the
reload — i.e. the two steps run in the order delete-then-cancel. -/
theorem C2_delete_flow_order (fd fc fl : Bool) (id : Nat) (s : AppState) :
    (deleteReminder fd fc fl id s).2 =
      Event.storeDelete id ::
        (if fd then [Event.logError "Error while deleting reminder: "]
         else Event.notifCancel (toString id) ::
           (if fc then [Event.logError "Error while deleting reminder: "]
            else Event.storeSelectAll ::
              (if fl then [Event.logError "Error while loading reminders: "] else []))) := by
  cases fd <;> cases fc <;> cases fl <;> simp [deleteReminder, loadReminders]

/-- C3: for any triple of strings — including empty title and message and a
past-dated timestamp — a fault-free `addReminder` succeeds with no
validation, and the subsequent `listAll` yields the previous records plus a
record carrying exactly those fields together with an id unused by every
previously listed record. -/
theorem C3_add_then_list (title message date : String) (s : AppState)
    (h : StoreInv s) :
    listAll ((addReminder false false false title message date s).1.db) =
      listAll s.db ++
        [{ id := s.db.nextId, title := title, message := message, date := date }]
    ∧ (∀ r ∈ listAll s.db, r.id ≠ s.db.nextId) := by
  constructor
  · rw [listAll, addReminder_ok_db]
    simp [runAsyncInsert, listAll]
  · intro r hr
    exact Nat.ne_of_lt (h.1 r hr)

theorem C3_witness :
    listAll ((addReminder false false false "" "" "1999-12-31T23:59:59.000Z" exInit).1.db) =
      listAll exInit.db ++
        [{ id := exInit.db.nextId, title := "", message := "",
           date := "1999-12-31T23:59:59.000Z" }]
    ∧ (∀ r ∈ listAll exInit.db, r.id ≠ exInit.db.nextId) :=
  C3_add_then_list "" "" "1999-12-31T23:59:59.000Z" exInit (by decide)

/-- C4: deleting the same id twice in a row leaves the store in the same
state after the second call as after the first (neither call can raise an
error to its caller — the operation is total and every underlying failure
is caught), and deleting an id that is not present leaves the table
unchanged: a no-op, not an error. -/
theorem C4_delete_idempotent (id : Nat) (s : AppState) :
    ((deleteReminder false false false id
        (deleteReminder false false false id s).1).1.db
      = (deleteReminder false false false id s).1.db)
    ∧ (id ∉ s.db.reminders.map Reminder.id →
        (deleteReminder false false false id s).1.db.reminders = s.db.reminders) := by
  constructor
  · rw [deleteReminder_ok_db, deleteReminder_ok_db]
    simp [runAsyncDelete, List.filter_filter]
  · intro hid
    rw [deleteReminder_ok_db]
    simp only [runAsyncDelete]
    apply List.filter_eq_self.mpr
    intro r hr
    simp only [decide_eq_true_eq, ne_eq]
    intro hcontra
    exact hid (hcontra ▸ List.mem_map_of_mem Reminder.id hr)

theorem C4_witness :
    ((deleteReminder false false false 99
        (deleteReminder false false false 99 exTwo).1).1.db
      = (deleteReminder false false false 99 exTwo).1.db)
    ∧ (deleteReminder false false false 99 exTwo).1.db.reminders = exTwo.db.reminders :=
  ⟨(C4_delete_idempotent 99 exTwo).1, (C4_delete_idempotent 99 exTwo).2 (by decide)⟩

/-- C7: when arming the notification fails after the store insert succeeded
(and whatever the reload does), the newly inserted reminder record persists
in the store — it is present afterwards and nothing is rolled back. -/
theorem C7_arm_failure_keeps_record (fl : Bool) (t m d : String) (s : AppState) :
    (addReminder false true fl t m d s).1.db.reminders =
      s.db.reminders ++ [{ id := s.db.nextId, title := t, message := m, date := d }]
    ∧ { id := s.db.nextId, title := t, message := m, date := d } ∈
        (addReminder false true fl t m d s).1.db.reminders := by
  have hdb := addReminder_ok_db true fl t m d s
  constructor
  · rw [hdb]
    simp [runAsyncInsert]
  · rw [hdb]
    simp [runAsyncInsert]

/-- C8: the successful initialization step is idempotent — iterating it any
positive number of times equals running it once, afterwards the schema
exists, and no existing reminder record (nor the id sequence) is altered or
dropped. -/
theorem C8_initialize_idempotent (n : Nat) (db : DB) :
    ((fun d => (initDatabase false d).1)^[n + 1] db = (initDatabase false db).1)
    ∧ ((initDatabase false db).1).schemaInitialized = true
    ∧ ((initDatabase false db).1).reminders = db.reminders
    ∧ ((initDatabase false db).1).nextId = db.nextId := by
  refine ⟨?_, by simp [initDatabase], by simp [initDatabase], by simp [initDatabase]⟩
  induction n with
  | zero => rfl
  | succ k ih =>
    rw [Function.iterate_succ_apply', ih]
    simp [initDatabase]

/-- C9: cancelling by a tag which no currently scheduled notification
carries returns successfully (the modelled platform call is total) and
leaves the set of scheduled notifications unchanged — a no-op, not an
error. -/
theorem C9_cancel_without_match_is_noop (tag : String) (ns : NotifSys)
    (h : ∀ n ∈ ns.scheduled, n.identifier ≠ tag) :
    cancelScheduledNotificationAsync tag ns = ns := by
  unfold cancelScheduledNotificationAsync
  have : ns.scheduled.filter (fun n => n.identifier ≠ tag) = ns.scheduled := by
    apply List.filter_eq_self.mpr
    intro a ha
    simpa using h a ha
  rw [this]

theorem C9_witness :
    cancelScheduledNotificationAsync "7" exTwo.notifs = exTwo.notifs :=
  C9_cancel_without_match_is_noop "7" exTwo.notifs (by decide)

/-- Decides whether a trace contains any call into the host notification
subsystem (a schedule request or a cancellation). -/
def hasNotifCall (ev : List Event) : Bool :=
  ev.any (fun e => match e with
    | Event.notifScheduleReq _ _ _ => true
    | Event.notifCancel _ => true
    | _ => false)

/-- C10: when the initial store mutation fails — the insert of the add flow
or the record removal of the delete flow — no call into the notification
subsystem is issued (nothing armed or cancelled) and the whole application
state, the in-memory reminder list included, is unchanged. -/
theorem C10_failed_mutation_skips_rest (fs fl fc fl2 : Bool)
    (t m d : String) (id : Nat) (s : AppState) :
    (hasNotifCall (addReminder true fs fl t m d s).2 = false
      ∧ (addReminder true fs fl t m d s).1 = s
      ∧ (addReminder true fs fl t m d s).1.remindersUI = s.remindersUI)
    ∧ (hasNotifCall (deleteReminder true fc fl2 id s).2 = false
      ∧ (deleteReminder true fc fl2 id s).1 = s
      ∧ (deleteReminder true fc fl2 id s).1.remindersUI = s.remindersUI) := by
  simp [addReminder, deleteReminder, hasNotifCall]

/-- C6: every error raised inside an operation is logged to the console and
swallowed.  Each operation is a total function (nothing propagates to the
caller), and on a failure the remaining steps of that operation no-op: a
failing load leaves all state unchanged; a failing insert aborts the add
flow with all state unchanged; a failing arm inside add is logged but the
inserted row stays; a failing delete aborts the delete flow with all state
unchanged; a failing cancel inside delete leaves the row removed from the
store but skips the reload, so the in-memory list stays stale; a failing
reload after a successful delete also leaves the in-memory list stale; a
failing schema initialization is logged and leaves the database
unchanged. -/
theorem C6_errors_logged_and_swallowed (fs fl fc fl2 : Bool)
    (t m d : String) (id : Nat) (s : AppState) :
    ((loadReminders true s).1 = s
      ∧ Event.logError "Error while loading reminders: " ∈ (loadReminders true s).2)
    ∧ ((addReminder true fs fl t m d s).1 = s
      ∧ Event.logError "Error while adding reminder: " ∈ (addReminder true fs fl t m d s).2)
    ∧ (Event.logError "Error scheduling notification: " ∈ (addReminder false true fl t m d s).2
      ∧ (addReminder false true fl t m d s).1.db = runAsyncInsert t m d s.db)
    ∧ ((deleteReminder true fc fl2 id s).1 = s
      ∧ Event.logError "Error while deleting reminder: " ∈ (deleteReminder true fc fl2 id s).2)
    ∧ ((deleteReminder false true fl id s).1.db = runAsyncDelete id s.db
      ∧ (deleteReminder false true fl id s).1.remindersUI = s.remindersUI
      ∧ Event.logError "Error while deleting reminder: " ∈ (deleteReminder false true fl id s).2)
    ∧ ((deleteReminder false false true id s).1.remindersUI = s.remindersUI)
    ∧ ((initDatabase true s.db).1 = s.db
      ∧ Event.logError "Error while initializing database: " ∈ (initDatabase true s.db).2) := by
  refine ⟨⟨?_, ?_⟩, ⟨?_, ?_⟩, ⟨?_, ?_⟩, ⟨?_, ?_⟩, ⟨?_, ?_, ?_⟩, ?_, ?_, ?_⟩ <;>
    cases fl <;>
    simp [loadReminders, addReminder, deleteReminder, scheduleNotification, initDatabase,
      runAsyncInsert, runAsyncDelete]

theorem addN_db (t m d : String) (n : Nat) : ∀ (s : AppState),
    (addN n t m d s).db =
      { schemaInitialized := s.db.schemaInitialized,
        reminders := s.db.reminders ++
          (List.range n).map (fun k =>
            { id := s.db.nextId + k, title := t, message := m, date := d }),
        nextId := s.db.nextId + n } := by
  induction n with
  | zero => intro s; simp [addN]
  | succ k ih =>
    intro s
    simp only [addN]
    rw [ih, addReminder_ok_db]
    simp [runAsyncInsert, List.range_succ_eq_map, List.map_map, Function.comp,
      Nat.add_assoc, Nat.add_comm, Nat.add_left_comm]

theorem storeInv_runOp (s : AppState) (o : Op) (h : StoreInv s) :
    StoreInv (runOp s o) ∧ s.db.nextId ≤ (runOp s o).db.nextId := by
  cases o with
  | addOp t m d =>
    have hdb : (runOp s (Op.addOp t m d)).db = runAsyncInsert t m d s.db :=
      addReminder_ok_db false false t m d s
    refine ⟨⟨?_, ?_⟩, ?_⟩
    · rw [hdb]
      intro r hr
      simp only [runAsyncInsert, List.mem_append, List.mem_singleton] at hr
      rcases hr with hr | hr
      · exact Nat.lt_succ_of_lt (h.1 r hr)
      · rw [hr]
        exact Nat.lt_succ_self _
    · rw [hdb]
      simp only [runAsyncInsert, List.map_append, List.map_cons, List.map_nil]
      rw [List.nodup_append]
      refine ⟨h.2, List.nodup_singleton _, ?_⟩
      intro a ha hb
      simp only [List.mem_singleton] at hb
      rcases List.mem_map.mp ha with ⟨r, hr, hid⟩
      have := h.1 r hr
      omega
    · rw [hdb]
      exact Nat.le_succ _
  | delOp i =>
    have hdb : (runOp s (Op.delOp i)).db = runAsyncDelete i s.db :=
      deleteReminder_ok_db false false i s
    refine ⟨⟨?_, ?_⟩, ?_⟩
    · rw [hdb]
      intro r hr
      exact h.1 r (List.mem_of_mem_filter hr)
    · rw [hdb]
      exact List.Nodup.sublist ((List.filter_sublist s.db.reminders).map Reminder.id) h.2
    · rw [hdb]
      exact Nat.le_refl _

theorem storeInv_runOps (ops : List Op) : ∀ (s : AppState), StoreInv s →
    StoreInv (runOps s ops) ∧ s.db.nextId ≤ (runOps s ops).db.nextId := by
  induction ops with
  | nil => intro s h; exact ⟨h, Nat.le_refl _⟩
  | cons o os ih =>
    intro s h
    have h1 := storeInv_runOp s o h
    have h2 := ih (runOp s o) h1.1
    exact ⟨h2.1, Nat.le_trans h1.2 h2.2⟩

theorem addN_eq_runOps (t m d : String) (n : Nat) : ∀ (s : AppState),
    addN n t m d s = runOps s (List.replicate n (Op.addOp t m d)) := by
  induction n with
  | zero => intro s; rfl
  | succ k ih =>
    intro s
    simp only [addN, List.replicate_succ]
    exact ih _

/-- C5: starting from any state satisfying the store invariant, `n`
sequential fault-free adds append exactly the records with the `n`
consecutive fresh ids `nextId, nextId+1, ...` — pairwise distinct and
strictly above every persisted id; moreover every sequence of fault-free
adds and deletes preserves the invariant (all persisted ids below the
AUTOINCREMENT sequence, persisted ids pairwise distinct) and the sequence
value is monotone, so an id, once assigned, is never assigned again even
after deletions. -/
theorem C5_id_uniqueness (n : Nat) (t m d : String) (ops : List Op) (s : AppState)
    (h : StoreInv s) :
    ((addN n t m d s).db.reminders =
      s.db.reminders ++ (List.range n).map (fun k =>
        { id := s.db.nextId + k, title := t, message := m, date := d }))
    ∧ ((List.range n).map (fun k => s.db.nextId + k)).Nodup
    ∧ ((addN n t m d s).db.reminders.map Reminder.id).Nodup
    ∧ StoreInv (runOps s ops)
    ∧ s.db.nextId ≤ (runOps s ops).db.nextId := by
  refine ⟨?_, ?_, ?_, (storeInv_runOps ops s h).1, (storeInv_runOps ops s h).2⟩
  · rw [addN_db]
  · exact (List.nodup_range n).map (fun a b hab => by omega)
  · rw [addN_eq_runOps]
    exact (storeInv_runOps (List.replicate n (Op.addOp t m d)) s h).1.2

theorem C5_witness :
    ((addN 2 "x" "y" "z" exTwo).db.reminders =
      exTwo.db.reminders ++ (List.range 2).map (fun k =>
        { id := exTwo.db.nextId + k, title := "x", message := "y", date := "z" }))
    ∧ ((List.range 2).map (fun k => exTwo.db.nextId + k)).Nodup
    ∧ ((addN 2 "x" "y" "z" exTwo).db.reminders.map Reminder.id).Nodup
    ∧ StoreInv (runOps exTwo [Op.addOp "p" "q" "r", Op.delOp 1])
    ∧ exTwo.db.nextId ≤ (runOps exTwo [Op.addOp "p" "q" "r", Op.delOp 1]).db.nextId :=
  C5_id_uniqueness 2 "x" "y" "z" [Op.addOp "p" "q" "r", Op.delOp 1] exTwo (by decide)
